import Mathlib

/-!
Shallow embedding of the forward-classifier and formatter of `src/bot.py`
(class `TelegramInfoBot`), together with proofs of the specification's
claims about it.

Conventions of the embedding:
* Python `datetime` values are Unix timestamps (`Int`, seconds); the
  ambient clock `datetime.now()` becomes an explicit parameter `now : Int`.
* Optional attributes (`forward_from`, `forward_from_chat`,
  `forward_sender_name`, `forward_date`, `username`, `language_code`,
  `title`) become `Option` fields; Python truthiness on an optional string
  (`if msg.forward_sender_name:`) is `false` on `none` and on the empty
  string.
* A Python expression that can raise inside the handler's `try` block is
  modelled in `Except String`; the sole such expression reachable from the
  handler body is `msg.forward_date.strftime(...)` when `forward_date` is
  `None` (an `AttributeError`).  `estimate_account_age` has its own local
  `try/except` and is modelled with `Option`.
* f-string interpolation of a value becomes `toString` / explicit
  rendering; `str(None)` renders as `"None"`.
-/

/-- Telegram `User` object: the fields `bot.py` reads. -/
structure TgUser where
  id : Int
  is_bot : Bool
  first_name : String
  username : Option String
  language_code : Option String
deriving DecidableEq, Repr

/-- Telegram `Chat` object: the fields `bot.py` reads.  `type` is the
type tag string (e.g. `"group"`, `"channel"`). -/
structure TgChat where
  id : Int
  type : String
  title : Option String
  username : Option String
deriving DecidableEq, Repr

/-- Telegram `Message` object: the forward-related fields `bot.py` reads.
`forward_date` is a Unix timestamp when present. -/
structure TgMessage where
  forward_from : Option TgUser
  forward_from_chat : Option TgChat
  forward_sender_name : Option String
  forward_date : Option Int
deriving DecidableEq, Repr

/-- The slice of a Telegram `Update` that `myid_command` can reach:
the effective user and the carried message. -/
structure TgUpdate where
  effective_user : TgUser
  message : TgMessage
deriving DecidableEq, Repr

/-- `x if x else 'N/A'` on an optional string, with Python truthiness
(`None` and `""` are falsy).  Used for the `Username:` lines and for the
`Language:` line of `/myid` (`bot.py` lines 72-73). -/
def strOrNA : Option String → String
  | none => "N/A"
  | some s => if s = "" then "N/A" else s

/-- f-string rendering of an optional string attribute that is
interpolated directly: `None` prints as `"None"`.  Used for the
`Language:` line of `format_user_info` (`bot.py` line 100, where the
`hasattr` test is always true on a `telegram.User`) and for `chat.title`
(line 110). -/
def pyOptStr : Option String → String
  | none => "None"
  | some s => s

/-- Python truthiness of an optional string. -/
def strTruthy : Option String → Bool
  | none => false
  | some s => !(s == "")

/-- Python `str.capitalize()`: first character upper-cased, the rest
lower-cased (`chat.type.capitalize()`, `bot.py` line 109). -/
def pyCapitalize (s : String) : String :=
  match s.data with
  | [] => ""
  | c :: cs => String.mk (c.toUpper :: cs.map Char.toLower)

/-- Zero-pad a (nonnegative) integer to two digits, as `%d`-style
`strftime` fields do. -/
def pad2 (n : Int) : String :=
  if n < 10 then "0" ++ toString n else toString n

/-- Zero-pad a (nonnegative) integer to four digits, for `%Y`. -/
def pad4 (n : Int) : String :=
  if n < 10 then "000" ++ toString n
  else if n < 100 then "00" ++ toString n
  else if n < 1000 then "0" ++ toString n
  else toString n

/-- Proleptic-Gregorian civil date from a count of days since the Unix
epoch (the standard days-to-civil algorithm); yields `(year, month, day)`. -/
def civilFromDays (z0 : Int) : Int × Int × Int :=
  let z := z0 + 719468
  let era := Int.fdiv z 146097
  let doe := z - era * 146097
  let yoe := Int.fdiv (doe - Int.fdiv doe 1460 + Int.fdiv doe 36524 - Int.fdiv doe 146096) 365
  let y := yoe + era * 400
  let doy := doe - (365 * yoe + Int.fdiv yoe 4 - Int.fdiv yoe 100)
  let mp := Int.fdiv (5 * doy + 2) 153
  let d := doy - Int.fdiv (153 * mp + 2) 5 + 1
  let m := mp + (if mp < 10 then 3 else -9)
  (y + (if m ≤ 2 then 1 else 0), m, d)

/-- `datetime.strftime('%Y-%m-%d %H:%M')` on a Unix timestamp
(`bot.py` line 136). -/
def strftimeYmdHM (t : Int) : String :=
  let days := Int.fdiv t 86400
  let secs := Int.emod t 86400
  let ymd := civilFromDays days
  pad4 ymd.1 ++ "-" ++ pad2 ymd.2.1 ++ "-" ++ pad2 ymd.2.2 ++ " "
    ++ pad2 (Int.fdiv secs 3600) ++ ":" ++ pad2 (Int.fdiv (Int.emod secs 3600) 60)

/-- `datetime.fromtimestamp`: succeeds exactly on timestamps whose civil
date lies in Python's `datetime` range (year 1 to 9999); out-of-range
values raise and are modelled as `none` (`bot.py` line 82). -/
def fromtimestamp (ts : Int) : Option Int :=
  if -62135596800 ≤ ts ∧ ts ≤ 253402300799 then some ts else none

/-- Body of the `try` block of `estimate_account_age`
(`bot.py` lines 80-87): shift the id right 32 bits (Python `>>` is a
floor shift), mask to 32 bits, read the result as a Unix timestamp, and
render the elapsed time in years (when more than 365 days) or months. -/
def estimate_account_age_body (now : Int) (user_id : Int) : Option String :=
  let timestamp := Int.emod (Int.fdiv user_id 4294967296) 4294967296
  match fromtimestamp timestamp with
  | none => none
  | some account_date =>
    let days := Int.fdiv (now - account_date) 86400
    if 365 < days then
      some (toString (Int.fdiv days 365) ++ " year"
        ++ (if 1 < Int.fdiv days 365 then "s" else "") ++ " old")
    else
      some (toString (Int.fdiv days 30) ++ " month"
        ++ (if 1 < Int.fdiv days 30 then "s" else "") ++ " old")

/-- `estimate_account_age` (`bot.py` lines 77-90): the `try` body with
every failure caught and replaced by `"unknown age"`. -/
def estimate_account_age (now : Int) (user_id : Int) : String :=
  match estimate_account_age_body now user_id with
  | some s => s
  | none => "unknown age"

/-- `format_user_info` (`bot.py` lines 92-102). -/
def format_user_info (now : Int) (u : TgUser) : String :=
  "👤 <b>User Information</b>\n├ " ++ ("ID: <code>" ++ toString u.id ++ "</code>")
    ++ "\n├ Is Bot: " ++ (if u.is_bot then "✅ Yes" else "❌ No")
    ++ "\n├ First Name: " ++ u.first_name
    ++ "\n├ Username: " ++ ("@" ++ strOrNA u.username)
    ++ "\n├ Language: " ++ pyOptStr u.language_code
    ++ "\n└ Account Age: " ++ estimate_account_age now u.id ++ "\n"

/-- `format_chat_info` (`bot.py` lines 104-112). -/
def format_chat_info (c : TgChat) : String :=
  "📢 <b>Chat Information</b>\n├ " ++ ("ID: <code>" ++ toString c.id ++ "</code>")
    ++ "\n├ Type: " ++ pyCapitalize c.type
    ++ "\n├ Title: " ++ pyOptStr c.title
    ++ "\n└ Username: " ++ ("@" ++ strOrNA c.username) ++ "\n"

/-- The privacy-redacted reply block (`bot.py` lines 134-138). -/
def privacy_block (nm : String) (d : Int) : String :=
  "👤 <b>Forwarded from</b>: " ++ nm
    ++ "\n🕒 <b>Date</b>: " ++ strftimeYmdHM d
    ++ "\n⚠️ <i>More info hidden by privacy settings</i>"

/-- The fixed not-identifiable reply (`bot.py` lines 141-147). -/
def not_identifiable_text : String :=
  "❌ <b>Couldn\x27t identify sender</b>\n\nPossible reasons:\n1. Not a proper forwarded message\n2. Extremely strict privacy settings\n3. From a secret chat"

/-- The generic error reply of the handler's `except` branch
(`bot.py` lines 151-154). -/
def bot_error_text : String :=
  "⚠️ <b>Bot error occurred</b>\nPlease check server logs"

/-- The `try` block of `handle_forwarded` (`bot.py` lines 119-148): the
four-way priority dispatch.  The only reachable exception is
`forward_date.strftime` on a `None` date in the privacy branch. -/
def handle_forwarded_body (now : Int) (msg : TgMessage) : Except String String :=
  match msg.forward_from with
  | some u => .ok (format_user_info now u)
  | none =>
    match msg.forward_from_chat with
    | some c => .ok (format_chat_info c)
    | none =>
      match msg.forward_sender_name with
      | some nm =>
        if nm = "" then .ok not_identifiable_text
        else
          match msg.forward_date with
          | some d => .ok (privacy_block nm d)
          | none => .error "AttributeError: NoneType object has no attribute strftime"
      | none => .ok not_identifiable_text

/-- `handle_forwarded` (`bot.py` lines 114-155): the `try` body with the
top-level `except` replacing any failure by the generic error reply. -/
def handle_forwarded (now : Int) (msg : TgMessage) : String :=
  match handle_forwarded_body now msg with
  | .ok s => s
  | .error _ => bot_error_text

/-- `myid_command` reply text (`bot.py` lines 65-75); it reads only
`update.effective_user`. -/
def myid_text (u : TgUser) : String :=
  "🆔 <b>Your Telegram ID</b>\n├ " ++ ("ID: <code>" ++ toString u.id ++ "</code>")
    ++ "\n├ First Name: " ++ u.first_name
    ++ "\n├ Username: " ++ ("@" ++ strOrNA u.username)
    ++ "\n└ Language: " ++ strOrNA u.language_code

/-- `myid_command` (`bot.py` lines 65-75) as a function of the update. -/
def myid_command (upd : TgUpdate) : String :=
  myid_text upd.effective_user

/-- Substring containment on strings, via the character lists. -/
def Contains (hay needle : String) : Prop :=
  ∃ x y, hay.data = x ++ needle.data ++ y

theorem data_app (a b : String) : (a ++ b).data = a.data ++ b.data := by
  cases a; cases b; rfl

theorem contains_iff_chars (h n : String) : Contains h n ↔ n.data <:+: h.data := by
  constructor
  · rintro ⟨x, y, e⟩
    exact ⟨x, y, e.symm⟩
  · rintro ⟨x, y, e⟩
    exact ⟨x, y, e.symm⟩

theorem contains_self (s : String) : Contains s s :=
  ⟨[], [], by simp⟩

theorem contains_appL {a n : String} (b : String) (h : Contains a n) :
    Contains (a ++ b) n := by
  obtain ⟨x, y, e⟩ := h
  exact ⟨x, y ++ b.data, by rw [data_app, e]; simp⟩

theorem contains_appR (a : String) {b n : String} (h : Contains b n) :
    Contains (a ++ b) n := by
  obtain ⟨x, y, e⟩ := h
  exact ⟨a.data ++ x, y, by rw [data_app, e]; simp⟩

theorem fromtimestamp_emod (x : Int) :
    fromtimestamp (Int.emod x 4294967296) = some (Int.emod x 4294967296) := by
  have h1 : 0 ≤ Int.emod x 4294967296 := Int.emod_nonneg x (by decide)
  have h2 : Int.emod x 4294967296 < 4294967296 := Int.emod_lt_of_pos x (by decide)
  unfold fromtimestamp
  have h3 : (-62135596800 : Int) ≤ Int.emod x 4294967296 ∧
      Int.emod x 4294967296 ≤ 253402300799 := ⟨by linarith, by linarith⟩
  simp [h3]

theorem handle_user_branch (now : Int) (msg : TgMessage) (u : TgUser)
    (h : msg.forward_from = some u) :
    handle_forwarded now msg = format_user_info now u := by
  unfold handle_forwarded handle_forwarded_body
  rw [h]

theorem handle_chat_branch (now : Int) (msg : TgMessage) (c : TgChat)
    (h0 : msg.forward_from = none) (hc : msg.forward_from_chat = some c) :
    handle_forwarded now msg = format_chat_info c := by
  unfold handle_forwarded handle_forwarded_body
  rw [h0, hc]

theorem handle_privacy_branch (now : Int) (msg : TgMessage) (nm : String) (d : Int)
    (h0 : msg.forward_from = none) (hc : msg.forward_from_chat = none)
    (hn : msg.forward_sender_name = some nm) (hne : nm ≠ "")
    (hd : msg.forward_date = some d) :
    handle_forwarded now msg = privacy_block nm d := by
  unfold handle_forwarded handle_forwarded_body
  rw [h0, hc, hn, hd]
  simp [hne]

theorem handle_none_branch (now : Int) (msg : TgMessage)
    (h0 : msg.forward_from = none) (hc : msg.forward_from_chat = none)
    (hn : strTruthy msg.forward_sender_name = false) :
    handle_forwarded now msg = not_identifiable_text := by
  unfold handle_forwarded handle_forwarded_body
  rw [h0, hc]
  cases hsn : msg.forward_sender_name with
  | none => rfl
  | some s =>
    rw [hsn] at hn
    unfold strTruthy at hn
    simp at hn
    simp [hn]

theorem handle_privacy_err_branch (now : Int) (msg : TgMessage) (nm : String)
    (h0 : msg.forward_from = none) (hc : msg.forward_from_chat = none)
    (hn : msg.forward_sender_name = some nm) (hne : nm ≠ "")
    (hd : msg.forward_date = none) :
    handle_forwarded now msg = bot_error_text := by
  unfold handle_forwarded handle_forwarded_body
  rw [h0, hc, hn, hd]
  simp [hne]

/-- C1: the forward handler classifies every message by the fixed priority
order user-forward, chat-forward, privacy-redacted forward,
not-identifiable, and (absent an internal error) produces exactly the
reply of the first branch whose field is present. -/
theorem c1_priority_classification (now : Int) (msg : TgMessage) :
    (∀ u, msg.forward_from = some u →
      handle_forwarded now msg = format_user_info now u)
    ∧ (∀ c, msg.forward_from = none → msg.forward_from_chat = some c →
      handle_forwarded now msg = format_chat_info c)
    ∧ (∀ nm d, msg.forward_from = none → msg.forward_from_chat = none →
      msg.forward_sender_name = some nm → nm ≠ "" → msg.forward_date = some d →
      handle_forwarded now msg = privacy_block nm d)
    ∧ (msg.forward_from = none → msg.forward_from_chat = none →
      strTruthy msg.forward_sender_name = false →
      handle_forwarded now msg = not_identifiable_text) := by
  refine ⟨?_, ?_, ?_, ?_⟩
  · intro u hu
    exact handle_user_branch now msg u hu
  · intro c h0 hc
    exact handle_chat_branch now msg c h0 hc
  · intro nm d h0 hc hn hne hd
    exact handle_privacy_branch now msg nm d h0 hc hn hne hd
  · intro h0 hc hn
    exact handle_none_branch now msg h0 hc hn

/-- Witness for C1: one concrete message per branch. -/
theorem c1_priority_classification_witness :
    handle_forwarded 1700000000
        ⟨some ⟨123456789, false, "Alice", some "alice", some "en"⟩, none, none, none⟩
      = format_user_info 1700000000 ⟨123456789, false, "Alice", some "alice", some "en"⟩
    ∧ handle_forwarded 0 ⟨none, some ⟨-100123, "channel", some "News", none⟩, none, none⟩
      = format_chat_info ⟨-100123, "channel", some "News", none⟩
    ∧ handle_forwarded 0 ⟨none, none, some "Bob", some 1622550840⟩
      = privacy_block "Bob" 1622550840
    ∧ handle_forwarded 0 ⟨none, none, none, none⟩ = not_identifiable_text :=
  ⟨(c1_priority_classification 1700000000 _).1 _ rfl,
   (c1_priority_classification 0 _).2.1 _ rfl rfl,
   (c1_priority_classification 0 _).2.2.1 "Bob" 1622550840 rfl rfl rfl (by decide) rfl,
   (c1_priority_classification 0 _).2.2.2 rfl rfl (by decide)⟩

/-- C2: every run of the forward handler either returns the result of its
`try` body, or, when the body fails, returns the generic error reply; the
handler itself is total and never propagates the failure. -/
theorem c2_handler_catches_failures (now : Int) (msg : TgMessage) :
    (∃ s, handle_forwarded_body now msg = .ok s ∧ handle_forwarded now msg = s)
    ∨ (∃ e, handle_forwarded_body now msg = .error e ∧
      handle_forwarded now msg = bot_error_text) := by
  rcases h : handle_forwarded_body now msg with e | s
  · right
    exact ⟨e, rfl, by unfold handle_forwarded; rw [h]⟩
  · left
    exact ⟨s, rfl, by unfold handle_forwarded; rw [h]⟩

set_option maxRecDepth 10000

/-- C3 counterexample: in the reply for a forwarded-from-user with id
123456789 and username "alice", the literal text `ID: 123456789` does not
occur — the identifier is wrapped in markup as `ID: <code>123456789</code>`. -/
theorem c3_literal_id_counterexample :
    ¬ Contains (handle_forwarded 1700000000
      ⟨some ⟨123456789, false, "Alice", some "alice", some "en"⟩, none, none, none⟩)
      "ID: 123456789" := by
  rw [contains_iff_chars]
  decide

/-- C3 (amended): for every message with a populated forwarded-from-user,
the reply contains the user's identifier (wrapped in markup as
`ID: <code>…</code>`) and `@` followed by the user's handle, or the `N/A`
placeholder when the handle is absent. -/
theorem c3_user_forward_contains_id_and_handle (now : Int) (msg : TgMessage) (u : TgUser)
    (h : msg.forward_from = some u) :
    Contains (handle_forwarded now msg) (toString u.id)
    ∧ Contains (handle_forwarded now msg) ("ID: <code>" ++ toString u.id ++ "</code>")
    ∧ Contains (handle_forwarded now msg) ("@" ++ strOrNA u.username) := by
  rw [handle_user_branch now msg u h]
  unfold format_user_info
  refine ⟨?_, ?_, ?_⟩
  · exact contains_appL _ (contains_appL _ (contains_appL _ (contains_appL _ (contains_appL _
      (contains_appL _ (contains_appL _ (contains_appL _ (contains_appL _ (contains_appL _
      (contains_appL _ (contains_appR _ (contains_appL _ (contains_appR _
      (contains_self _))))))))))))))
  · exact contains_appL _ (contains_appL _ (contains_appL _ (contains_appL _ (contains_appL _
      (contains_appL _ (contains_appL _ (contains_appL _ (contains_appL _ (contains_appL _
      (contains_appL _ (contains_appR _ (contains_self _))))))))))))
  · exact contains_appL _ (contains_appL _ (contains_appL _ (contains_appL _ (contains_appL _
      (contains_appR _ (contains_self _))))))

/-- Witness for C3 (amended): the concrete id-123456789 / "alice" example. -/
theorem c3_user_forward_contains_witness :
    Contains (handle_forwarded 1700000000
      ⟨some ⟨123456789, false, "Alice", some "alice", some "en"⟩, none, none, none⟩)
      (toString (123456789 : Int))
    ∧ Contains (handle_forwarded 1700000000
      ⟨some ⟨123456789, false, "Alice", some "alice", some "en"⟩, none, none, none⟩)
      ("@" ++ strOrNA (some "alice")) :=
  ⟨(c3_user_forward_contains_id_and_handle 1700000000 _
      ⟨123456789, false, "Alice", some "alice", some "en"⟩ rfl).1,
   (c3_user_forward_contains_id_and_handle 1700000000 _
      ⟨123456789, false, "Alice", some "alice", some "en"⟩ rfl).2.2⟩

/-- C4: `estimate_account_age` is total on every integer identifier and
clock value: it returns the string computed by its `try` body when that
body succeeds, and the string `"unknown age"` when the body fails, so no
failure ever propagates. -/
theorem c4_estimate_total_catch (now user_id : Int) :
    (estimate_account_age_body now user_id = none ∧
      estimate_account_age now user_id = "unknown age")
    ∨ (∃ s, estimate_account_age_body now user_id = some s ∧
      estimate_account_age now user_id = s) := by
  rcases h : estimate_account_age_body now user_id with _ | s
  · left
    exact ⟨rfl, by unfold estimate_account_age; rw [h]⟩
  · right
    exact ⟨s, rfl, by unfold estimate_account_age; rw [h]⟩

/-- C5 counterexample: the same message object, handled at two different
clock readings, yields two different reply texts — the account-age
estimate embedded in the user-info block depends on the current time, so
the handler is not a pure function of the message alone. -/
theorem c5_clock_counterexample :
    handle_forwarded 31622400 ⟨some ⟨5, false, "A", none, none⟩, none, none, none⟩ ≠
    handle_forwarded 69120000 ⟨some ⟨5, false, "A", none, none⟩, none, none, none⟩ := by
  decide

/-- C5 (amended): two invocations on the same message produce the same
reply whenever they read the same clock value; for any message without a
forwarded-from-user the reply is independent of the clock entirely (the
account-age estimate of the user branch is the only clock-dependent
part). -/
theorem c5_two_run_determinism (t1 t2 : Int) (msg : TgMessage)
    (h : t1 = t2 ∨ msg.forward_from = none) :
    handle_forwarded t1 msg = handle_forwarded t2 msg := by
  rcases h with h | h
  · rw [h]
  · unfold handle_forwarded handle_forwarded_body
    rw [h]

/-- Witness for C5 (amended): a privacy-redacted forward handled at two
different clock readings gives the same reply. -/
theorem c5_two_run_determinism_witness :
    handle_forwarded 0 ⟨none, none, some "Bob", some 1622550840⟩ =
    handle_forwarded 12345 ⟨none, none, some "Bob", some 1622550840⟩ :=
  c5_two_run_determinism 0 12345 _ (Or.inr rfl)

/-- C6: the account-age estimate reads the high 32 bits of the identifier
(arithmetic shift right by 32, masked to 32 bits) as a Unix timestamp,
and reports the elapsed time in years when the day count exceeds 365 and
in months otherwise. -/
theorem c6_high_bits_timestamp (now user_id ts days : Int)
    (hts : ts = Int.emod (Int.fdiv user_id 4294967296) 4294967296)
    (hdays : days = Int.fdiv (now - ts) 86400) :
    (365 < days → estimate_account_age now user_id =
      toString (Int.fdiv days 365) ++ " year"
        ++ (if 1 < Int.fdiv days 365 then "s" else "") ++ " old")
    ∧ (days ≤ 365 → estimate_account_age now user_id =
      toString (Int.fdiv days 30) ++ " month"
        ++ (if 1 < Int.fdiv days 30 then "s" else "") ++ " old") := by
  subst hts
  subst hdays
  constructor
  · intro h
    have hb : estimate_account_age_body now user_id =
        some (toString (Int.fdiv (Int.fdiv (now - Int.emod (Int.fdiv user_id 4294967296) 4294967296) 86400) 365) ++ " year"
          ++ (if 1 < Int.fdiv (Int.fdiv (now - Int.emod (Int.fdiv user_id 4294967296) 4294967296) 86400) 365 then "s" else "") ++ " old") := by
      simp only [estimate_account_age_body, fromtimestamp_emod]
      rw [if_pos h]
    unfold estimate_account_age
    rw [hb]
  · intro h
    have hb : estimate_account_age_body now user_id =
        some (toString (Int.fdiv (Int.fdiv (now - Int.emod (Int.fdiv user_id 4294967296) 4294967296) 86400) 30) ++ " month"
          ++ (if 1 < Int.fdiv (Int.fdiv (now - Int.emod (Int.fdiv user_id 4294967296) 4294967296) 86400) 30 then "s" else "") ++ " old") := by
      simp only [estimate_account_age_body, fromtimestamp_emod]
      rw [if_neg (not_lt.mpr h)]
    unfold estimate_account_age
    rw [hb]

/-- Witness for C6: identifier 0 (timestamp 0) at two clock values, one
past 365 days (years branch) and one at 0 days (months branch). -/
theorem c6_high_bits_timestamp_witness :
    estimate_account_age 63072000 0 = toString (Int.fdiv 730 365) ++ " year"
      ++ (if 1 < Int.fdiv 730 365 then "s" else "") ++ " old"
    ∧ estimate_account_age 0 0 = toString (Int.fdiv 0 30) ++ " month"
      ++ (if 1 < Int.fdiv 0 30 then "s" else "") ++ " old" :=
  ⟨(c6_high_bits_timestamp 63072000 0 0 730 (by decide) (by decide)).1 (by decide),
   (c6_high_bits_timestamp 0 0 0 0 (by decide) (by decide)).2 (by decide)⟩

/-- C7: for a message whose only populated forward field is the sender
name (and whose forward date is present), the reply contains that name,
the date rendered as `%Y-%m-%d %H:%M`, and the privacy notice. -/
theorem c7_privacy_forward_contents (now : Int) (msg : TgMessage) (nm : String) (d : Int)
    (h0 : msg.forward_from = none) (hc : msg.forward_from_chat = none)
    (hn : msg.forward_sender_name = some nm) (hne : nm ≠ "")
    (hd : msg.forward_date = some d) :
    Contains (handle_forwarded now msg) nm
    ∧ Contains (handle_forwarded now msg) (strftimeYmdHM d)
    ∧ Contains (handle_forwarded now msg) "More info hidden by privacy settings" := by
  rw [handle_privacy_branch now msg nm d h0 hc hn hne hd]
  unfold privacy_block
  refine ⟨?_, ?_, ?_⟩
  · exact contains_appL _ (contains_appL _ (contains_appL _ (contains_appR _
      (contains_self _))))
  · exact contains_appL _ (contains_appR _ (contains_self _))
  · exact contains_appR _ (by rw [contains_iff_chars]; decide)

/-- Witness for C7: the concrete privacy-redacted forward from "Bob". -/
theorem c7_privacy_forward_contents_witness :
    Contains (handle_forwarded 0 ⟨none, none, some "Bob", some 1622550840⟩) "Bob"
    ∧ Contains (handle_forwarded 0 ⟨none, none, some "Bob", some 1622550840⟩)
      (strftimeYmdHM 1622550840)
    ∧ Contains (handle_forwarded 0 ⟨none, none, some "Bob", some 1622550840⟩)
      "More info hidden by privacy settings" :=
  c7_privacy_forward_contents 0 _ "Bob" 1622550840 rfl rfl rfl (by decide) rfl

/-- C8: for a message with a populated forwarded-from-chat (and no
forwarded-from-user), the reply contains the chat's identifier, its title
(when present), its type tag capitalized, and `@` followed by the chat's
handle or the `N/A` placeholder. -/
theorem c8_chat_forward_contents (now : Int) (msg : TgMessage) (c : TgChat) (t : String)
    (h0 : msg.forward_from = none) (hc : msg.forward_from_chat = some c)
    (ht : c.title = some t) :
    Contains (handle_forwarded now msg) (toString c.id)
    ∧ Contains (handle_forwarded now msg) t
    ∧ Contains (handle_forwarded now msg) (pyCapitalize c.type)
    ∧ Contains (handle_forwarded now msg) ("@" ++ strOrNA c.username) := by
  rw [handle_chat_branch now msg c h0 hc]
  unfold format_chat_info
  refine ⟨?_, ?_, ?_, ?_⟩
  · exact contains_appL _ (contains_appL _ (contains_appL _ (contains_appL _ (contains_appL _
      (contains_appL _ (contains_appL _ (contains_appR _ (contains_appL _ (contains_appR _
      (contains_self _))))))))))
  · rw [show pyOptStr c.title = t from by rw [ht]; rfl]
    exact contains_appL _ (contains_appL _ (contains_appL _ (contains_appR _
      (contains_self _))))
  · exact contains_appL _ (contains_appL _ (contains_appL _ (contains_appL _ (contains_appL _
      (contains_appR _ (contains_self _))))))
  · exact contains_appL _ (contains_appR _ (contains_self _))

/-- Witness for C8: a concrete channel forward. -/
theorem c8_chat_forward_contents_witness :
    Contains (handle_forwarded 0 ⟨none, some ⟨-100123, "channel", some "News", none⟩, none, none⟩)
      (toString (-100123 : Int))
    ∧ Contains (handle_forwarded 0 ⟨none, some ⟨-100123, "channel", some "News", none⟩, none, none⟩)
      "News"
    ∧ Contains (handle_forwarded 0 ⟨none, some ⟨-100123, "channel", some "News", none⟩, none, none⟩)
      (pyCapitalize "channel")
    ∧ Contains (handle_forwarded 0 ⟨none, some ⟨-100123, "channel", some "News", none⟩, none, none⟩)
      ("@" ++ strOrNA (none : Option String)) :=
  c8_chat_forward_contents 0 _ ⟨-100123, "channel", some "News", none⟩ "News" rfl rfl rfl

/-- C9: the `/myid` reply contains the invoking (effective) user's
identifier, first name, handle line, and language line, and depends on no
other field of the update: any update with the same effective user yields
the identical reply. -/
theorem c9_myid_contents (upd : TgUpdate) :
    Contains (myid_command upd) (toString upd.effective_user.id)
    ∧ Contains (myid_command upd) upd.effective_user.first_name
    ∧ Contains (myid_command upd) ("@" ++ strOrNA upd.effective_user.username)
    ∧ Contains (myid_command upd) (strOrNA upd.effective_user.language_code)
    ∧ ∀ upd2 : TgUpdate, upd2.effective_user = upd.effective_user →
      myid_command upd2 = myid_command upd := by
  unfold myid_command myid_text
  refine ⟨?_, ?_, ?_, ?_, ?_⟩
  · exact contains_appL _ (contains_appL _ (contains_appL _ (contains_appL _ (contains_appL _
      (contains_appL _ (contains_appR _ (contains_appL _ (contains_appR _
      (contains_self _)))))))))
  · exact contains_appL _ (contains_appL _ (contains_appL _ (contains_appL _ (contains_appR _
      (contains_self _)))))
  · exact contains_appL _ (contains_appL _ (contains_appR _ (contains_self _)))
  · exact contains_appR _ (contains_self _)
  · intro upd2 h
    rw [h]

/-- Witness for C9: two updates sharing the effective user but differing
in the carried message give the same `/myid` reply. -/
theorem c9_myid_contents_witness :
    myid_command ⟨⟨42, false, "Ann", none, some "en"⟩, ⟨none, none, some "x", none⟩⟩ =
    myid_command ⟨⟨42, false, "Ann", none, some "en"⟩, ⟨none, none, none, none⟩⟩ :=
  (c9_myid_contents _).2.2.2.2 _ rfl

theorem head?_app (a b : List Char) (h : a ≠ []) : (a ++ b).head? = a.head? := by
  cases a
  · exact absurd rfl h
  · rfl

theorem ne_of_data_head (a b : String) (h : a.data.head? ≠ b.data.head?) : a ≠ b :=
  fun e => h (congrArg (fun s => s.data.head?) e)

/-- C10 (implicit): when the sender name is populated but the forward
date is absent, formatting the date fails inside the handler, so the
handler does not produce the privacy-redacted block and replies with the
generic error text instead. -/
theorem c10_sender_name_no_date_error (now : Int) (msg : TgMessage) (nm : String)
    (h0 : msg.forward_from = none) (hc : msg.forward_from_chat = none)
    (hn : msg.forward_sender_name = some nm) (hne : nm ≠ "")
    (hd : msg.forward_date = none) :
    handle_forwarded now msg = bot_error_text
    ∧ ∀ d, handle_forwarded now msg ≠ privacy_block nm d := by
  have he := handle_privacy_err_branch now msg nm h0 hc hn hne hd
  refine ⟨he, ?_⟩
  intro d
  rw [he]
  apply ne_of_data_head
  simp only [privacy_block, data_app, List.append_assoc]
  rw [head?_app _ _ (by decide)]
  decide

/-- Witness for C10: the concrete sender "Bob" with no forward date. -/
theorem c10_sender_name_no_date_error_witness :
    handle_forwarded 0 ⟨none, none, some "Bob", none⟩ = bot_error_text
    ∧ handle_forwarded 0 ⟨none, none, some "Bob", none⟩ ≠ privacy_block "Bob" 0 :=
  ⟨(c10_sender_name_no_date_error 0 _ "Bob" rfl rfl rfl (by decide) rfl).1,
   (c10_sender_name_no_date_error 0 _ "Bob" rfl rfl rfl (by decide) rfl).2 0⟩
